import Mathlib

/-!
Verification of the stock-analysis pipeline (`src/stock_analysis/main.py`)
against its specification.

The development shallowly embeds the module's functions:

* `create_database_path`  — path construction plus directory creation,
* `create_sql_db`         — DataFrame persistence into SQLite,
* `response_to_df`        — response parsing/validation into a DataFrame,
* `get_response`          — HTTP fetch with classified transport errors,
* `scrape_data`           — the fetch → extract → persist pipeline,
* `get_table_overview`    — schema/preview read with populate-on-missing.

Python exceptions are embedded as an explicit `Exc` type; raising is
modelled by `Except`, and `try/except` blocks by pattern matching on the
inner result.  The file system and the SQLite store are explicit state
(`FS`), threaded through each function.  JSON scalars are modelled as
null, integers and strings (floating-point and boolean scalars are not
modelled; no claim below depends on them), with arrays and objects for
the nested structure.
-/

/-- JSON values as produced by `response.json()`.  `obj` models a parsed
Python dict (unique keys in parsed JSON); `null` is Python `None`. -/
inductive J where
  | null : J
  | i (n : Int) : J
  | s (str : String) : J
  | arr (elems : List J) : J
  | obj (fields : List (String × J)) : J

/-- Python truthiness (`bool(v)`) for the modelled JSON values: `None`,
`0`, the empty string, the empty list and the empty dict are falsy. -/
def J.pyTruthy : J → Bool
  | .null => false
  | .i n => n != 0
  | .s str => !str.isEmpty
  | .arr elems => !elems.isEmpty
  | .obj fields => !fields.isEmpty

/-- Exception values.  Constructors prefixed `tv` are instances of the
single classified type `TradingViewError`, one constructor per distinct
message prefix at a `raise TradingViewError(...)` site, carrying the
wrapped cause where the message interpolates one.  The remaining
constructors are the library exceptions that can arise inside the
`try` blocks. -/
inductive Exc where
  /-- `requests.exceptions.JSONDecodeError` from `response.json()`. -/
  | jsonDecodeError : Exc
  /-- `AttributeError`: `.get` called on a non-dict value. -/
  | attributeError : Exc
  /-- `TypeError`: iterating a non-iterable value. -/
  | typeError : Exc
  /-- pandas `DataFrame` constructor failure: `passed` column names given,
  data had width `had`. -/
  | pdColumnsMismatch (passed had : Nat) : Exc
  /-- `FileNotFoundError` from `mkdir` with a missing parent. -/
  | fileNotFoundError : Exc
  /-- `sqlite3.OperationalError` (e.g. `connect` into a missing directory,
  or `SELECT` from a missing table). -/
  | sqliteOperationalError : Exc
  /-- `sqlite3` parameter-binding failure on an unsupported cell type. -/
  | sqliteBindError : Exc
  /-- `requests.exceptions.Timeout`. -/
  | requestsTimeout : Exc
  /-- `requests.exceptions.ConnectionError`. -/
  | requestsConnectionError : Exc
  /-- `requests.exceptions.HTTPError` raised by `raise_for_status`. -/
  | requestsHTTPError (status : Nat) : Exc
  /-- any other transport-layer failure of `requests.post`. -/
  | requestsOtherError : Exc
  /-- `TradingViewError("Database path creation failed: {e}")`. -/
  | tvDbPathFailed (cause : Exc) : Exc
  /-- `TradingViewError("Database save operation failed: {e}")`. -/
  | tvDbSaveFailed (cause : Exc) : Exc
  /-- `TradingViewError("Invalid JSON response: {e}")`. -/
  | tvInvalidJson : Exc
  /-- `TradingViewError("Unable to find 'data' key in response")`. -/
  | tvMissingData : Exc
  /-- `TradingViewError("Unable to find valid rows in response")`. -/
  | tvNoValidRows : Exc
  /-- `TradingViewError("Response conversion failed: {e}")`. -/
  | tvConversionFailed (cause : Exc) : Exc
  /-- `TradingViewError("API request timeout: {e}")`. -/
  | tvTimeout (cause : Exc) : Exc
  /-- `TradingViewError("Connection failed: {e}")`. -/
  | tvConnectionFailed (cause : Exc) : Exc
  /-- `TradingViewError("HTTP error: {e}")`. -/
  | tvHttpError (cause : Exc) : Exc
  /-- `TradingViewError("Unable to access TradingView API: {e}")`. -/
  | tvApiUnexpected (cause : Exc) : Exc
  /-- `TradingViewError("Error while scraping data: {e}")`. -/
  | tvScrapeFailed (cause : Exc) : Exc
  /-- `TradingViewError("Unable to get table overview: {e}")`. -/
  | tvOverviewFailed (cause : Exc) : Exc
deriving DecidableEq, Repr

/-- Whether the exception is an instance of the classified type
`TradingViewError` (as opposed to a raw library exception). -/
def Exc.isTradingView : Exc → Bool
  | .tvDbPathFailed _ | .tvDbSaveFailed _ | .tvInvalidJson | .tvMissingData
  | .tvNoValidRows | .tvConversionFailed _ | .tvTimeout _
  | .tvConnectionFailed _ | .tvHttpError _ | .tvApiUnexpected _
  | .tvScrapeFailed _ | .tvOverviewFailed _ => true
  | _ => false

/-- Whether a computation's outcome surfaces only classified errors. -/
def resultClassified {α : Type} : Except Exc α → Bool
  | .ok _ => true
  | .error e => e.isTradingView

/-- Scalar JSON values (those the SQLite parameter binder accepts). -/
def J.isScalar : J → Bool
  | .null | .i _ | .s _ => true
  | .arr _ | .obj _ => false

/-- In-memory table: the embedding of a pandas `DataFrame` with named
columns, as produced by `response_to_df`.  Cell values are the JSON
values taken from the response. -/
structure DataFrame where
  cols : List String
  rows : List (List J)

/-- An HTTP response: its status code and, when the body is valid JSON,
the parsed value (`none` models a body on which `response.json()`
raises). -/
structure Response where
  status : Nat
  body : Option J

/-- Width of the widest row, as computed by the pandas constructor when
it turns a list of row lists into a rectangular block. -/
def maxWidth (rows : List (List J)) : Nat :=
  rows.foldr (fun r acc => max r.length acc) 0

/-- Pad one row on the right up to width `w`; the pandas constructor
fills missing trailing cells of short rows with a missing-value marker
(Python `None`), modelled here by `J.null`. -/
def padRow (w : Nat) (r : List J) : List J :=
  r ++ List.replicate (w - r.length) .null

/-- Require every row value to be a list, as the nested-list path of the
pandas constructor does.  (The constructor has further paths for rows
that are all scalars or all dicts; no row reaching it in this program's
claims is of those shapes, and a non-list row is modelled as the
constructor failing.) -/
def asRowList : List J → Option (List (List J))
  | [] => some []
  | .arr r :: rest => (asRowList rest).map (r :: ·)
  | _ => none

/-- Embedding of `pd.DataFrame(rows, columns=cols)` on a list of row
lists: the block's width is the widest row's length, shorter rows are
padded with the missing-value marker, and the constructor raises when
the number of column names differs from the block width (the
"`N` columns passed, passed data had `M` columns" error). -/
def pdDataFrame (cols : List String) (rows : List J) : Except Exc DataFrame :=
  match asRowList rows with
  | none => .error .typeError
  | some rs =>
    if rs.isEmpty then .ok ⟨cols, []⟩
    else
      let w := maxWidth rs
      if w = cols.length then .ok ⟨cols, rs.map (padRow w)⟩
      else .error (.pdColumnsMismatch cols.length w)

/-- Embedding of `row.get("d", None)` on a dict entry: `none` when the
key is absent or its value is JSON null (both give Python `None`). -/
def rowGetD (fields : List (String × J)) : Option J :=
  match fields.lookup "d" with
  | none => none
  | some .null => none
  | some v => some v

/-- The filtering loop of `response_to_df`, started at index `i`: walks
the entries in order, skipping (and recording the index of, for the
warning log) every entry whose `d` value is absent or null, collecting
the remaining `d` values in entry order.  A non-dict entry makes
`row.get` raise `AttributeError`, aborting the loop; warnings emitted
before the abort are kept. -/
def collectRows : Nat → List J → Except Exc (List J) × List Nat
  | _, [] => (.ok [], [])
  | i, .obj fields :: rest =>
    match rowGetD fields with
    | none =>
      let (r, ws) := collectRows (i + 1) rest
      (r, i :: ws)
    | some v =>
      let (r, ws) := collectRows (i + 1) rest
      (r.map (v :: ·), ws)
  | _, _ :: _ => (.error .attributeError, [])

/-- Body of the `try` block of `response_to_df`: parse the body, look up
the top-level `data` field (raising the missing-data `TradingViewError`
when it is absent or falsy), filter the entries, raise the no-valid-rows
`TradingViewError` when nothing survives, and build the DataFrame.
A non-dict top level makes `.get` raise `AttributeError`; a truthy but
non-list `data` value fails when iterated (`AttributeError` on the
string/dict elements' `.get`, `TypeError` for a non-iterable number).
The second component is the list of indices logged at warning level. -/
def response_to_df_try (cols : List String) (body : Option J) :
    Except Exc DataFrame × List Nat :=
  match body with
  | none => (.error .jsonDecodeError, [])
  | some (.obj fields) =>
    match fields.lookup "data" with
    | none => (.error .tvMissingData, [])
    | some dv =>
      if !dv.pyTruthy then (.error .tvMissingData, [])
      else
        match dv with
        | .arr entries =>
          match collectRows 0 entries with
          | (.error e, ws) => (.error e, ws)
          | (.ok rows, ws) =>
            if rows.isEmpty then (.error .tvNoValidRows, ws)
            else
              match pdDataFrame cols rows with
              | .error e => (.error e, ws)
              | .ok df => (.ok df, ws)
        | .obj _ => (.error .attributeError, [])
        | .s _ => (.error .attributeError, [])
        | _ => (.error .typeError, [])
  | some _ => (.error .attributeError, [])

/-- The `except` clauses of `response_to_df`: a JSON decode failure is
re-raised as the invalid-JSON `TradingViewError`; every other exception
— the function's own `TradingViewError`s from the missing-data and
no-valid-rows checks included, since `except Exception` catches them
too — is re-raised wrapped as the generic conversion-failed
`TradingViewError`. -/
def wrapConversion (e : Exc) : Exc :=
  if e = .jsonDecodeError then .tvInvalidJson else .tvConversionFailed e

/-- Embedding of `response_to_df`: the `try` body wrapped by the
`except` clauses.  `cols` is the configured `COLUMNS` value list, an
external constant of the repository. -/
def response_to_df (cols : List String) (resp : Response) :
    Except Exc DataFrame × List Nat :=
  match response_to_df_try cols resp.body with
  | (.ok df, ws) => (.ok df, ws)
  | (.error e, ws) => (.error (wrapConversion e), ws)

/-- SQLite storage values: the storage classes a stored cell can take
here (NULL, INTEGER, TEXT). -/
inductive SqlVal where
  | null : SqlVal
  | int (n : Int) : SqlVal
  | text (str : String) : SqlVal
deriving DecidableEq, Repr

/-- Conversion performed by the SQLite parameter binder when a row is
inserted: null, integers and strings bind directly; list and dict cells
are unsupported types and make the binder raise. -/
def J.toSqlVal : J → Option SqlVal
  | .null => some .null
  | .i n => some (.int n)
  | .s str => some (.text str)
  | .arr _ => none
  | .obj _ => none

/-- Value conversion performed when a stored cell is read back. -/
def SqlVal.toJ : SqlVal → J
  | .null => .null
  | .int n => .i n
  | .text str => .s str

/-- Bind one row's cells for insertion, failing at the first cell of an
unsupported type. -/
def rowToSql : List J → Option (List SqlVal)
  | [] => some []
  | c :: cs =>
    match c.toSqlVal with
    | none => none
    | some v =>
      match rowToSql cs with
      | none => none
      | some l => some (v :: l)

/-- Bind a list of rows for insertion, failing at the first row with an
unsupported cell. -/
def rowsToSql : List (List J) → Option (List (List SqlVal))
  | [] => some []
  | r :: rest =>
    match rowToSql r with
    | none => none
    | some l =>
      match rowsToSql rest with
      | none => none
      | some ls => some (l :: ls)

/-- Bind every row of the DataFrame for insertion. -/
def dfToSql (df : DataFrame) : Option (List (List SqlVal)) :=
  rowsToSql df.rows

/-- The one named table of a snapshot store: its column names in schema
order and its rows in insertion order. -/
structure Table where
  cols : List String
  rows : List (List SqlVal)
deriving DecidableEq, Repr

/-- Contents of one database file: the `stock_data` table, when it has
been created (a freshly created file has no table). -/
structure DB where
  stockData : Option Table
deriving DecidableEq, Repr

/-- A database file path: its directory and file name components. -/
structure DbPath where
  dir : String
  file : String
deriving DecidableEq, Repr

/-- File-system state: the directories that exist and the database files
with their contents. -/
structure FS where
  dirs : List String
  files : List (DbPath × DB)

/-- Create or overwrite the file at `p`, leaving the other files as they
are. -/
def setEntry (p : DbPath) (db : DB) : List (DbPath × DB) → List (DbPath × DB)
  | [] => [(p, db)]
  | (q, d) :: rest => if q = p then (p, db) :: rest else (q, d) :: setEntry p db rest

/-- File-system update with one file created or overwritten. -/
def FS.setFile (fs : FS) (p : DbPath) (db : DB) : FS :=
  { fs with files := setEntry p db fs.files }

/-- Look up a file's contents. -/
def findFile (p : DbPath) : List (DbPath × DB) → Option DB
  | [] => none
  | (q, d) :: rest => if q = p then some d else findFile p rest

/-- Contents of the file at `p`, when it exists. -/
def FS.getFile (fs : FS) (p : DbPath) : Option DB :=
  findFile p fs.files

/-- Connection-handling events of one `create_sql_db` call, recording
what the `with sqlite3.connect(path) as conn:` block does to the
connection.  Per the `sqlite3` module's semantics the context manager
commits the transaction on normal exit and rolls it back on an
exception; it does not close the connection, and the source never calls
`conn.close()`. -/
inductive ConnEvent where
  | acquire : ConnEvent
  | commit : ConnEvent
  | rollback : ConnEvent
  | close : ConnEvent
deriving DecidableEq, Repr

/-- Embedding of `create_sql_db(path, df)`: connect (creating the file;
an `sqlite3.OperationalError` if the directory does not exist), then
`df.to_sql("stock_data", conn, if_exists="replace", index=False)`
inside the connection's context manager.  On success the table holds
exactly the DataFrame's columns and rows and the transaction commits.
If a cell is an unsupported type the binder raises: the `DROP`/`CREATE`
of the replace step have already auto-committed while the inserts roll
back, so the file keeps an empty table with the new schema (behaviour
confirmed against `sqlite3`), and the `except` clause re-raises the
classified save error.  The third component is the trace of
connection-handling events. -/
def create_sql_db (path : DbPath) (df : DataFrame) (fs : FS) :
    Except Exc Unit × FS × List ConnEvent :=
  if fs.dirs.contains path.dir then
    match dfToSql df with
    | some sqlRows =>
      (.ok (), fs.setFile path ⟨some ⟨df.cols, sqlRows⟩⟩, [.acquire, .commit])
    | none =>
      (.error (.tvDbSaveFailed .sqliteBindError),
       fs.setFile path ⟨some ⟨df.cols, []⟩⟩, [.acquire, .rollback])
  else
    (.error (.tvDbSaveFailed .sqliteOperationalError), fs, [])

/-- Calendar date, the value of `datetime.now().date()`. -/
structure Date where
  year : Nat
  month : Nat
  day : Nat
deriving DecidableEq, Repr

/-- Zero-padded decimal rendering, as `strftime` field formatting. -/
def padNum (width n : Nat) : String :=
  let s := toString n
  String.mk (List.replicate (width - s.length) '0') ++ s

/-- Rendering of `strftime("%Y-%m-%d")`. -/
def dateStr (d : Date) : String :=
  padNum 4 d.year ++ "-" ++ padNum 2 d.month ++ "-" ++ padNum 2 d.day

/-- Embedding of `create_database_path()`: ensure the fixed base
directory `src/database` exists (`mkdir(exist_ok=True)`: a no-op when it
exists, creation when only the parent exists, `FileNotFoundError` —
re-raised classified — when the parent is missing too) and return the
path `src/database/<YYYY-MM-DD>.db` for the current date.  The database
file itself is never created here. -/
def create_database_path (today : Date) (fs : FS) : Except Exc DbPath × FS :=
  if fs.dirs.contains "src/database" then
    (.ok ⟨"src/database", dateStr today ++ ".db"⟩, fs)
  else if fs.dirs.contains "src" then
    (.ok ⟨"src/database", dateStr today ++ ".db"⟩,
     { fs with dirs := "src/database" :: fs.dirs })
  else
    (.error (.tvDbPathFailed .fileNotFoundError), fs)

/-- Outcome of the one `requests.post` call: the transport-level
failures the `except` clauses distinguish, or a response. -/
inductive NetOutcome where
  | timeout : NetOutcome
  | connectionError : NetOutcome
  | otherTransportError : NetOutcome
  | response (resp : Response) : NetOutcome

/-- Embedding of `get_response()`: one POST with a 30-second timeout;
each transport failure re-raised as its classified error; a non-success
status (400–599) makes `raise_for_status` raise `HTTPError`, re-raised
classified; otherwise the response is returned. -/
def get_response : NetOutcome → Except Exc Response
  | .timeout => .error (.tvTimeout .requestsTimeout)
  | .connectionError => .error (.tvConnectionFailed .requestsConnectionError)
  | .otherTransportError => .error (.tvApiUnexpected .requestsOtherError)
  | .response r =>
    if 400 ≤ r.status ∧ r.status < 600 then
      .error (.tvHttpError (.requestsHTTPError r.status))
    else .ok r

/-- The `except` clauses of `scrape_data`: a `TradingViewError` is
re-raised as-is, anything else is wrapped. -/
def reraiseTV (e : Exc) : Exc :=
  if e.isTradingView then e else .tvScrapeFailed e

/-- Embedding of `scrape_data()`: fetch, extract, build today's path,
save — stopping at the first failure, whose classified error is
re-raised unchanged. -/
def scrape_data (net : NetOutcome) (cols : List String) (today : Date)
    (fs : FS) : Except Exc Unit × FS :=
  match get_response net with
  | .error e => (.error (reraiseTV e), fs)
  | .ok resp =>
    match (response_to_df cols resp).1 with
    | .error e => (.error (reraiseTV e), fs)
    | .ok df =>
      match create_database_path today fs with
      | (.error e, fs1) => (.error (reraiseTV e), fs1)
      | (.ok p, fs1) =>
        match create_sql_db p df fs1 with
        | (.error e, fs2, _) => (.error (reraiseTV e), fs2)
        | (.ok _, fs2, _) => (.ok (), fs2)

/-- The information `get_table_overview` reads and formats into its
report: the table name, the schema's column names in order (from
`PRAGMA table_info`), and the `SELECT * FROM stock_data LIMIT 1`
preview.  The textual rendering of the report is not modelled. -/
structure Overview where
  tableName : String
  schemaCols : List String
  preview : List (List SqlVal)
deriving DecidableEq, Repr

/-- Embedding of `get_table_overview()`: compute today's path, scrape
when the file does not exist, then connect (creating the file when the
scrape was skipped or did not reach the save) and read the schema and a
one-row preview.  `SELECT` from a file with no `stock_data` table
raises `sqlite3.OperationalError`.  Every failure anywhere in the body
— classified errors from the populate path included — is caught by the
function's `except Exception` and re-raised wrapped as the overview
error. -/
def get_table_overview (net : NetOutcome) (cols : List String) (today : Date)
    (fs : FS) : Except Exc Overview × FS :=
  match create_database_path today fs with
  | (.error e, fs1) => (.error (.tvOverviewFailed e), fs1)
  | (.ok p, fs1) =>
    let step :=
      if (fs1.getFile p).isSome then (Except.ok (), fs1)
      else scrape_data net cols today fs1
    match step with
    | (.error e, fs2) => (.error (.tvOverviewFailed e), fs2)
    | (.ok _, fs2) =>
      if fs2.dirs.contains p.dir then
        let db := (fs2.getFile p).getD ⟨none⟩
        let fs3 := fs2.setFile p db
        match db.stockData with
        | none => (.error (.tvOverviewFailed .sqliteOperationalError), fs3)
        | some t => (.ok ⟨"stock_data", t.cols, t.rows.take 1⟩, fs3)
      else (.error (.tvOverviewFailed .sqliteOperationalError), fs2)

/-- Contents of the `stock_data` table stored at `p`, when the file and
the table exist. -/
def readTable (p : DbPath) (fs : FS) : Option Table :=
  (fs.getFile p).bind DB.stockData

/-- Read the stored table back as a RecordSet: the embedding of
`pd.read_sql_query("SELECT * FROM stock_data", conn)` against the store
state — columns in schema order, rows in insertion order, each stored
cell converted back to its value. -/
def readBackRecordSet (p : DbPath) (fs : FS) : Option DataFrame :=
  (readTable p fs).map fun t => ⟨t.cols, t.rows.map (List.map SqlVal.toJ)⟩

/-- Whether a `data` entry is a dict (so that `row.get` is defined). -/
def entryIsDict : J → Bool
  | .obj _ => true
  | _ => false

/-- Whether a dict entry lacks the nested `d` field in the sense of the
skip check: the key is absent or its value is null. -/
def entryLacksD : J → Bool
  | .obj fields => (rowGetD fields).isNone
  | _ => false

/-- The `d` values of the surviving entries, in entry order. -/
def survivorsD (entries : List J) : List J :=
  entries.filterMap fun e =>
    match e with
    | .obj fields => rowGetD fields
    | _ => none

/-- The surviving rows as value lists (entries whose `d` value is a
sequence), in entry order. -/
def dRows (entries : List J) : List (List J) :=
  entries.filterMap fun e =>
    match e with
    | .obj fields =>
      match rowGetD fields with
      | some (.arr l) => some l
      | _ => none
    | _ => none

/-- Indices (counting from `i`) of the entries the filtering loop skips
with a warning. -/
def skippedFrom : Nat → List J → List Nat
  | _, [] => []
  | i, e :: rest =>
    if entryLacksD e then i :: skippedFrom (i + 1) rest
    else skippedFrom (i + 1) rest

theorem skippedFrom_length (entries : List J) :
    ∀ i : Nat,
      (skippedFrom i entries).length = (entries.filter entryLacksD).length := by
  induction entries with
  | nil => intro i; rfl
  | cons e rest ih =>
    intro i
    by_cases he : entryLacksD e
    · simp [skippedFrom, List.filter_cons, he, ih]
    · simp [skippedFrom, List.filter_cons, he, ih]

theorem collectRows_eq (entries : List J) :
    ∀ i : Nat, (∀ e ∈ entries, entryIsDict e = true) →
      collectRows i entries = (.ok (survivorsD entries), skippedFrom i entries) := by
  induction entries with
  | nil => intro i _; rfl
  | cons e rest ih =>
    intro i h
    have he : entryIsDict e = true := h e (List.mem_cons_self e rest)
    have hrest : ∀ x ∈ rest, entryIsDict x = true :=
      fun x hx => h x (List.mem_cons_of_mem e hx)
    cases e with
    | obj fields =>
      cases hd : rowGetD fields with
      | none =>
        simp [collectRows, survivorsD, skippedFrom, entryLacksD, hd,
          ih (i + 1) hrest, List.filterMap_cons]
      | some v =>
        simp [collectRows, survivorsD, skippedFrom, entryLacksD, hd,
          ih (i + 1) hrest, List.filterMap_cons, Except.map]
    | null => simp [entryIsDict] at he
    | i m => simp [entryIsDict] at he
    | s str => simp [entryIsDict] at he
    | arr l => simp [entryIsDict] at he

theorem survivorsD_count (entries : List J)
    (h : ∀ e ∈ entries, entryIsDict e = true) :
    (survivorsD entries).length + (entries.filter entryLacksD).length
      = entries.length := by
  induction entries with
  | nil => rfl
  | cons e rest ih =>
    have he : entryIsDict e = true := h e (List.mem_cons_self e rest)
    have hrest : ∀ x ∈ rest, entryIsDict x = true :=
      fun x hx => h x (List.mem_cons_of_mem e hx)
    cases e with
    | obj fields =>
      cases hd : rowGetD fields with
      | none =>
        simp [survivorsD, List.filterMap_cons, List.filter_cons, entryLacksD, hd,
          ← ih hrest]
        omega
      | some v =>
        simp [survivorsD, List.filterMap_cons, List.filter_cons, entryLacksD, hd,
          ← ih hrest]
        omega
    | null => simp [entryIsDict] at he
    | i m => simp [entryIsDict] at he
    | s str => simp [entryIsDict] at he
    | arr l => simp [entryIsDict] at he

theorem asRowList_map_arr (ls : List (List J)) :
    asRowList (ls.map J.arr) = some ls := by
  induction ls with
  | nil => rfl
  | cons l rest ih => simp [asRowList, ih]

theorem maxWidth_cons (l : List J) (ls : List (List J)) :
    maxWidth (l :: ls) = max l.length (maxWidth ls) := rfl

theorem maxWidth_const (ls : List (List J)) :
    ∀ w : Nat, (∀ l ∈ ls, l.length = w) → ls ≠ [] → maxWidth ls = w := by
  induction ls with
  | nil => intro w _ hne; exact absurd rfl hne
  | cons l rest ih =>
    intro w h _
    have hl : l.length = w := h l (List.mem_cons_self _ _)
    cases rest with
    | nil => simp [maxWidth, hl]
    | cons r rs =>
      have hrest : maxWidth (r :: rs) = w :=
        ih w (fun x hx => h x (List.mem_cons_of_mem _ hx)) (by simp)
      rw [maxWidth_cons, hl, hrest, max_self]

theorem padRow_eq_self (w : Nat) (r : List J) (h : r.length = w) :
    padRow w r = r := by
  simp [padRow, ← h]

theorem response_to_df_try_ok (cols : List String) (entries : List J)
    (hdict : ∀ e ∈ entries, entryIsDict e = true)
    (hsurv : survivorsD entries = (dRows entries).map J.arr)
    (hne : 0 < (dRows entries).length)
    (hw : maxWidth (dRows entries) = cols.length) :
    response_to_df_try cols (some (.obj [("data", .arr entries)]))
      = (.ok ⟨cols, (dRows entries).map (padRow cols.length)⟩,
         skippedFrom 0 entries) := by
  have hentries : entries ≠ [] := by
    intro h
    subst h
    simp [dRows] at hne
  have htruthy : (J.arr entries).pyTruthy = true := by
    cases entries with
    | nil => exact absurd rfl hentries
    | cons a l => rfl
  have hcollect := collectRows_eq entries 0 hdict
  have hsne : (survivorsD entries).isEmpty = false := by
    rw [hsurv]
    cases h' : dRows entries with
    | nil => rw [h'] at hne; simp at hne
    | cons a l => simp
  have hpd : pdDataFrame cols (survivorsD entries)
      = .ok ⟨cols, (dRows entries).map (padRow cols.length)⟩ := by
    rw [hsurv]
    have hdne : (dRows entries).isEmpty = false := by
      cases h' : dRows entries with
      | nil => rw [h'] at hne; simp at hne
      | cons a l => simp
    simp [pdDataFrame, asRowList_map_arr, hdne, hw]
  simp [response_to_df_try, htruthy, hcollect, hsne, hpd]

theorem response_to_df_ok (cols : List String) (st : Nat) (entries : List J)
    (hdict : ∀ e ∈ entries, entryIsDict e = true)
    (hsurv : survivorsD entries = (dRows entries).map J.arr)
    (hne : 0 < (dRows entries).length)
    (hw : maxWidth (dRows entries) = cols.length) :
    response_to_df cols ⟨st, some (.obj [("data", .arr entries)])⟩
      = (.ok ⟨cols, (dRows entries).map (padRow cols.length)⟩,
         skippedFrom 0 entries) := by
  simp [response_to_df, response_to_df_try_ok cols entries hdict hsurv hne hw]

theorem findFile_setEntry (p : DbPath) (db : DB) (l : List (DbPath × DB)) :
    findFile p (setEntry p db l) = some db := by
  induction l with
  | nil => simp [setEntry, findFile]
  | cons qd rest ih =>
    obtain ⟨q, d⟩ := qd
    by_cases hq : q = p
    · simp [setEntry, hq, findFile]
    · simp [setEntry, hq, findFile, ih]

theorem create_sql_db_dirs (p : DbPath) (df : DataFrame) (fs : FS) :
    ((create_sql_db p df fs).2.1).dirs = fs.dirs := by
  by_cases hm : p.dir ∈ fs.dirs
  · cases hb : dfToSql df with
    | none => simp [create_sql_db, hm, hb, FS.setFile]
    | some rows => simp [create_sql_db, hm, hb, FS.setFile]
  · simp [create_sql_db, hm]

theorem rowToSql_scalar (row : List J) (h : ∀ c ∈ row, c.isScalar = true) :
    ∃ l, rowToSql row = some l ∧ l.map SqlVal.toJ = row := by
  induction row with
  | nil => exact ⟨[], rfl, rfl⟩
  | cons c cs ih =>
    have hc : c.isScalar = true := h c (List.mem_cons_self _ _)
    obtain ⟨l, hl, hback⟩ :=
      ih fun x hx => h x (List.mem_cons_of_mem _ hx)
    have hv : ∃ v, c.toSqlVal = some v ∧ v.toJ = c := by
      cases c with
      | null => exact ⟨.null, rfl, rfl⟩
      | i n => exact ⟨.int n, rfl, rfl⟩
      | s str => exact ⟨.text str, rfl, rfl⟩
      | arr es => simp [J.isScalar] at hc
      | obj fields => simp [J.isScalar] at hc
    obtain ⟨v, hv, hvback⟩ := hv
    exact ⟨v :: l, by simp [rowToSql, hv, hl], by simp [hvback, hback]⟩

theorem rowsToSql_scalar (rows : List (List J))
    (h : ∀ row ∈ rows, ∀ c ∈ row, c.isScalar = true) :
    ∃ rs, rowsToSql rows = some rs
      ∧ rs.map (List.map SqlVal.toJ) = rows := by
  induction rows with
  | nil => exact ⟨[], rfl, rfl⟩
  | cons r rest ih =>
    obtain ⟨l, hl, hback⟩ :=
      rowToSql_scalar r (h r (List.mem_cons_self _ _))
    obtain ⟨rs, hrs, hrsback⟩ :=
      ih fun x hx => h x (List.mem_cons_of_mem _ hx)
    exact ⟨l :: rs, by simp [rowsToSql, hl, hrs], by simp [hback, hrsback]⟩

theorem create_sql_db_ok (p : DbPath) (df : DataFrame) (fs : FS)
    (hscalar : ∀ row ∈ df.rows, ∀ c ∈ row, c.isScalar = true)
    (hdir : p.dir ∈ fs.dirs) :
    (create_sql_db p df fs).1 = .ok ()
    ∧ readBackRecordSet p (create_sql_db p df fs).2.1
        = some ⟨df.cols, df.rows⟩ := by
  obtain ⟨rs, hbind, hback⟩ := rowsToSql_scalar df.rows hscalar
  have hbind' : dfToSql df = some rs := hbind
  constructor
  · simp [create_sql_db, hdir, hbind']
  · simp [create_sql_db, hdir, hbind', readBackRecordSet, readTable,
      FS.getFile, FS.setFile, findFile_setEntry, hback]

theorem reraiseTV_classified (e : Exc) : (reraiseTV e).isTradingView = true := by
  unfold reraiseTV
  by_cases h : e.isTradingView = true
  · rw [if_pos h]; exact h
  · rw [if_neg h]; rfl

theorem wrapConversion_classified (e : Exc) :
    (wrapConversion e).isTradingView = true := by
  by_cases h : e = .jsonDecodeError
  · simp [wrapConversion, h, Exc.isTradingView]
  · simp [wrapConversion, h, Exc.isTradingView]

theorem create_database_path_classified (today : Date) (fs : FS) :
    resultClassified (create_database_path today fs).1 = true := by
  by_cases h1 : ("src/database" : String) ∈ fs.dirs
  · simp [create_database_path, h1, resultClassified]
  · by_cases h2 : ("src" : String) ∈ fs.dirs
    · simp [create_database_path, h1, h2, resultClassified]
    · simp [create_database_path, h1, h2, resultClassified, Exc.isTradingView]

theorem create_sql_db_classified (p : DbPath) (df : DataFrame) (fs : FS) :
    resultClassified (create_sql_db p df fs).1 = true := by
  by_cases hm : p.dir ∈ fs.dirs
  · cases hb : dfToSql df with
    | none => simp [create_sql_db, hm, hb, resultClassified, Exc.isTradingView]
    | some rows => simp [create_sql_db, hm, hb, resultClassified]
  · simp [create_sql_db, hm, resultClassified, Exc.isTradingView]

theorem response_to_df_classified (cols : List String) (resp : Response) :
    resultClassified (response_to_df cols resp).1 = true := by
  rcases h : response_to_df_try cols resp.body with ⟨r, ws⟩
  cases r with
  | ok df => simp [response_to_df, h, resultClassified]
  | error e => simp [response_to_df, h, resultClassified, wrapConversion_classified]

theorem get_response_classified (net : NetOutcome) :
    resultClassified (get_response net) = true := by
  cases net with
  | timeout => rfl
  | connectionError => rfl
  | otherTransportError => rfl
  | response r =>
    by_cases h : 400 ≤ r.status ∧ r.status < 600
    · simp [get_response, h, resultClassified, Exc.isTradingView]
    · simp [get_response, h, resultClassified]

theorem scrape_data_classified (net : NetOutcome) (cols : List String)
    (today : Date) (fs : FS) :
    resultClassified (scrape_data net cols today fs).1 = true := by
  unfold scrape_data
  cases hg : get_response net with
  | error e => simp [resultClassified, reraiseTV_classified]
  | ok resp =>
    cases hr : (response_to_df cols resp).1 with
    | error e => simp [hr, resultClassified, reraiseTV_classified]
    | ok df =>
      rcases hp : create_database_path today fs with ⟨pr, fs1⟩
      cases pr with
      | error e => simp [hr, resultClassified, reraiseTV_classified]
      | ok p =>
        rcases hs : create_sql_db p df fs1 with ⟨sr, fs2, tr⟩
        cases sr with
        | error e => simp [hr, hs, resultClassified, reraiseTV_classified]
        | ok u => simp [hr, hs, resultClassified]

theorem get_table_overview_classified (net : NetOutcome) (cols : List String)
    (today : Date) (fs : FS) :
    resultClassified (get_table_overview net cols today fs).1 = true := by
  unfold get_table_overview
  rcases hp : create_database_path today fs with ⟨pr, fs1⟩
  cases pr with
  | error e => simp [resultClassified, Exc.isTradingView]
  | ok p =>
    rcases hstep : (if (fs1.getFile p).isSome then (Except.ok (), fs1)
        else scrape_data net cols today fs1) with ⟨sr, fs2⟩
    cases sr with
    | error e => simp [hstep, resultClassified, Exc.isTradingView]
    | ok u =>
      by_cases hm : p.dir ∈ fs2.dirs
      · cases hdb : ((fs2.getFile p).getD ⟨none⟩).stockData with
        | none => simp [hstep, hm, hdb, resultClassified, Exc.isTradingView]
        | some t => simp [hstep, hm, hdb, resultClassified]
      · simp [hstep, hm, resultClassified, Exc.isTradingView]

/-- C1, counterexample: a parsed response whose `data` holds n = 2
entries of which exactly k = 1 (with 0 < k < n) lacks the nested `d`
field, yet `extract` does not succeed: the surviving row's arity (1)
differs from the configured column count (2), so the DataFrame
constructor raises and `response_to_df` fails with the wrapped error
(the one skipped-entry warning is still logged). -/
theorem c1_counterexample_arity :
    (([.obj [("d", .arr [.i 1])], .obj []] : List J).filter entryLacksD).length
      = 1
    ∧ ([.obj [("d", .arr [.i 1])], .obj []] : List J).length = 2
    ∧ response_to_df ["id", "name"]
        ⟨200, some (.obj [("data", .arr [.obj [("d", .arr [.i 1])], .obj []])])⟩
      = (.error (.tvConversionFailed (.pdColumnsMismatch 2 1)), [1]) :=
  ⟨rfl, rfl, rfl⟩

/-- C1 (amended): for a parsed response whose `data` entries are dicts,
with every surviving `d` value a sequence of the configured column
count's length, and where exactly k of the n entries (0 < k < n) lack
`d` (absent or null), `extract` succeeds and returns the surviving rows
in entry order — exactly n − k of them — and logs one warning per
skipped entry (the indices in `skippedFrom 0`, one per lacking entry:
their count equals k). -/
theorem c1_extract_skips_and_counts (cols : List String) (st : Nat)
    (entries : List J)
    (hdict : ∀ e ∈ entries, entryIsDict e = true)
    (hsurv : survivorsD entries = (dRows entries).map J.arr)
    (harity : ∀ l ∈ dRows entries, l.length = cols.length)
    (hk : 0 < (entries.filter entryLacksD).length)
    (hkn : (entries.filter entryLacksD).length < entries.length) :
    response_to_df cols ⟨st, some (.obj [("data", .arr entries)])⟩
      = (.ok ⟨cols, dRows entries⟩, skippedFrom 0 entries)
    ∧ (dRows entries).length
        = entries.length - (entries.filter entryLacksD).length
    ∧ (skippedFrom 0 entries).length
        = (entries.filter entryLacksD).length := by
  have hcount := survivorsD_count entries hdict
  have hlen : (survivorsD entries).length = (dRows entries).length := by
    rw [hsurv, List.length_map]
  have hne : 0 < (dRows entries).length := by omega
  have hw : maxWidth (dRows entries) = cols.length := by
    refine maxWidth_const _ cols.length harity ?_
    intro h0
    rw [h0] at hne
    simp at hne
  have hpad : (dRows entries).map (padRow cols.length) = dRows entries := by
    have h1 : ∀ l ∈ dRows entries, padRow cols.length l = l :=
      fun l hl => padRow_eq_self _ _ (harity l hl)
    rw [List.map_congr_left h1]
    simp
  refine ⟨?_, by omega, skippedFrom_length entries 0⟩
  have h := response_to_df_ok cols st entries hdict hsurv hne hw
  rw [hpad] at h
  exact h

/-- C1 witness: the amended theorem applied at the spec's concrete
scenario shape — two entries, one lacking `d` — yielding the one
surviving row and the one warning index. -/
theorem c1_extract_skips_and_counts_witness :
    response_to_df ["id", "name"]
        ⟨200, some (.obj [("data",
          .arr [.obj [("d", .arr [.i 1, .s "A"])], .obj []])])⟩
      = (.ok ⟨["id", "name"], [[.i 1, .s "A"]]⟩, [1]) :=
  (c1_extract_skips_and_counts ["id", "name"] 200
    [.obj [("d", .arr [.i 1, .s "A"])], .obj []]
    (by decide) rfl (by decide) (by decide) (by decide)).1

/-- C2: when the parsed body is an object whose `data` field is absent
(or present but empty), `response_to_df` does fail before touching any
entry — but not with the missing-data classification the claim names:
the missing-data `TradingViewError` raised inside the `try` block is
caught by the function's own `except Exception` and re-raised wrapped
as the generic conversion-failed error.  The surfaced error is still
distinct from the parse-error classification. -/
theorem c2_missing_data_double_wrapped :
    response_to_df ["id", "name"] ⟨200, some (.obj [("other", .i 1)])⟩
      = (.error (.tvConversionFailed .tvMissingData), [])
    ∧ response_to_df ["id", "name"] ⟨200, some (.obj [("data", .arr [])])⟩
        = (.error (.tvConversionFailed .tvMissingData), [])
    ∧ Exc.tvConversionFailed .tvMissingData ≠ Exc.tvMissingData
    ∧ Exc.tvConversionFailed .tvMissingData ≠ Exc.tvInvalidJson :=
  ⟨rfl, rfl, by decide, by decide⟩

/-- C3: when every entry of a non-empty `data` sequence lacks the
nested `d` field (absent or null), `response_to_df` does fail rather
than returning an empty RecordSet, logging one warning per entry — but
the no-valid-rows `TradingViewError` raised inside the `try` block is
caught by the function's own `except Exception` and surfaces wrapped
as the generic conversion-failed error, not as the distinct
no-valid-rows classification the claim names. -/
theorem c3_no_valid_rows_double_wrapped :
    response_to_df ["id", "name"]
        ⟨200, some (.obj [("data", .arr [.obj [], .obj [("d", .null)]])])⟩
      = (.error (.tvConversionFailed .tvNoValidRows), [0, 1])
    ∧ Exc.tvConversionFailed .tvNoValidRows ≠ Exc.tvNoValidRows :=
  ⟨rfl, by decide⟩

/-- C4, counterexample: a surviving row whose `d` sequence has length 3
while the configured column list has length 2 is not accepted — the
DataFrame constructor raises on the width mismatch and `response_to_df`
fails with the wrapped error, so assembly does not succeed. -/
theorem c4_counterexample_wide_row :
    dRows [.obj [("d", .arr [.i 1, .i 2, .i 3])]] = [[.i 1, .i 2, .i 3]]
    ∧ response_to_df ["id", "name"]
        ⟨200, some (.obj [("data",
          .arr [.obj [("d", .arr [.i 1, .i 2, .i 3])]])])⟩
      = (.error (.tvConversionFailed (.pdColumnsMismatch 2 3)), []) :=
  ⟨rfl, rfl⟩

/-- C4 (amended): `response_to_df` performs no per-row arity check —
whenever the widest surviving row's length equals the configured column
count, every surviving row is accepted, rows shorter than the column
count included (they are padded with the missing-value marker), and
assembly succeeds; but when the widest row's length differs from the
column count the DataFrame constructor raises, so extraction fails as a
whole rather than rejecting individual rows. -/
theorem c4_no_per_row_arity_check (cols : List String) (st : Nat)
    (entries : List J)
    (hdict : ∀ e ∈ entries, entryIsDict e = true)
    (hsurv : survivorsD entries = (dRows entries).map J.arr)
    (hne : 0 < (dRows entries).length)
    (hw : maxWidth (dRows entries) = cols.length) :
    response_to_df cols ⟨st, some (.obj [("data", .arr entries)])⟩
      = (.ok ⟨cols, (dRows entries).map (padRow cols.length)⟩,
         skippedFrom 0 entries) :=
  response_to_df_ok cols st entries hdict hsurv hne hw

/-- C4 witness: a surviving row of length 1 under 2 configured columns
is accepted without error and padded, while its neighbour of full width
fixes the block width. -/
theorem c4_no_per_row_arity_check_witness :
    response_to_df ["id", "name"]
        ⟨200, some (.obj [("data",
          .arr [.obj [("d", .arr [.i 1, .s "A"])],
                .obj [("d", .arr [.i 2])]])])⟩
      = (.ok ⟨["id", "name"], [[.i 1, .s "A"], [.i 2, .null]]⟩, []) :=
  c4_no_per_row_arity_check ["id", "name"] 200
    [.obj [("d", .arr [.i 1, .s "A"])], .obj [("d", .arr [.i 2])]]
    (by decide) rfl (by decide) (by decide)

/-- C5: saving a RecordSet (whose cells are storable scalars) and
reading the `stock_data` table back yields the same RecordSet — the
same rows in the same order and the same column order. -/
theorem c5_save_read_roundtrip (p : DbPath) (df : DataFrame) (fs : FS)
    (hscalar : ∀ row ∈ df.rows, ∀ c ∈ row, c.isScalar = true)
    (hdir : p.dir ∈ fs.dirs) :
    (create_sql_db p df fs).1 = .ok ()
    ∧ readBackRecordSet p (create_sql_db p df fs).2.1
        = some ⟨df.cols, df.rows⟩ :=
  create_sql_db_ok p df fs hscalar hdir

/-- C5 witness: round trip of a concrete one-row RecordSet. -/
theorem c5_save_read_roundtrip_witness :
    (create_sql_db ⟨"src/database", "2024-01-01.db"⟩
        ⟨["id", "name"], [[.i 1, .s "A"]]⟩ ⟨["src", "src/database"], []⟩).1
      = .ok ()
    ∧ readBackRecordSet ⟨"src/database", "2024-01-01.db"⟩
        (create_sql_db ⟨"src/database", "2024-01-01.db"⟩
          ⟨["id", "name"], [[.i 1, .s "A"]]⟩ ⟨["src", "src/database"], []⟩).2.1
      = some ⟨["id", "name"], [[.i 1, .s "A"]]⟩ :=
  c5_save_read_roundtrip ⟨"src/database", "2024-01-01.db"⟩
    ⟨["id", "name"], [[.i 1, .s "A"]]⟩ ⟨["src", "src/database"], []⟩
    (by decide) (by decide)

/-- C6: saving `r1` and then `r2` to the same path leaves exactly
`r2`'s rows queryable: the second save fully replaces schema and data,
whatever `r1` was and whether its save succeeded. -/
theorem c6_second_save_replaces (p : DbPath) (r1 r2 : DataFrame) (fs : FS)
    (hscalar : ∀ row ∈ r2.rows, ∀ c ∈ row, c.isScalar = true)
    (hdir : p.dir ∈ fs.dirs) :
    (create_sql_db p r2 (create_sql_db p r1 fs).2.1).1 = .ok ()
    ∧ readBackRecordSet p
        (create_sql_db p r2 (create_sql_db p r1 fs).2.1).2.1
      = some ⟨r2.cols, r2.rows⟩ := by
  have hdir1 : p.dir ∈ ((create_sql_db p r1 fs).2.1).dirs := by
    rw [create_sql_db_dirs]
    exact hdir
  exact create_sql_db_ok p r2 _ hscalar hdir1

/-- C6 witness: after saving a two-row table and then a different
one-row table for the same path, only the second table's row is
stored. -/
theorem c6_second_save_replaces_witness :
    (create_sql_db ⟨"src/database", "2024-01-01.db"⟩
        ⟨["x"], [[.i 9]]⟩
        (create_sql_db ⟨"src/database", "2024-01-01.db"⟩
          ⟨["id", "name"], [[.i 1, .s "A"], [.i 2, .s "B"]]⟩
          ⟨["src", "src/database"], []⟩).2.1).1
      = .ok ()
    ∧ readBackRecordSet ⟨"src/database", "2024-01-01.db"⟩
        (create_sql_db ⟨"src/database", "2024-01-01.db"⟩
          ⟨["x"], [[.i 9]]⟩
          (create_sql_db ⟨"src/database", "2024-01-01.db"⟩
            ⟨["id", "name"], [[.i 1, .s "A"], [.i 2, .s "B"]]⟩
            ⟨["src", "src/database"], []⟩).2.1).2.1
      = some ⟨["x"], [[.i 9]]⟩ :=
  c6_second_save_replaces ⟨"src/database", "2024-01-01.db"⟩
    ⟨["id", "name"], [[.i 1, .s "A"], [.i 2, .s "B"]]⟩
    ⟨["x"], [[.i 9]]⟩ ⟨["src", "src/database"], []⟩
    (by decide) (by decide)

/-- C7: with the base directory creatable (its parent, or the directory
itself, exists), `create_database_path` returns the deterministic path
`src/database/<YYYY-MM-DD>.db` for the current date; a second call on
the same day returns the identical path and changes nothing further
(the directory creation is idempotent), and neither call creates or
modifies any file. -/
theorem c7_path_deterministic_same_day (today : Date) (fs : FS)
    (h : ("src" : String) ∈ fs.dirs ∨ ("src/database" : String) ∈ fs.dirs) :
    ∃ fs1 : FS,
      create_database_path today fs
        = (.ok ⟨"src/database", dateStr today ++ ".db"⟩, fs1)
      ∧ create_database_path today fs1
          = (.ok ⟨"src/database", dateStr today ++ ".db"⟩, fs1)
      ∧ fs1.files = fs.files := by
  by_cases h1 : ("src/database" : String) ∈ fs.dirs
  · exact ⟨fs, by simp [create_database_path, h1],
      by simp [create_database_path, h1], rfl⟩
  · have h2 : ("src" : String) ∈ fs.dirs := h.resolve_right h1
    refine ⟨{ fs with dirs := "src/database" :: fs.dirs }, ?_, ?_, rfl⟩
    · simp [create_database_path, h1, h2]
    · simp [create_database_path]

/-- C7 witness: two same-day calls from a file system holding only the
parent directory. -/
theorem c7_path_deterministic_same_day_witness :
    ∃ fs1 : FS,
      create_database_path ⟨2024, 1, 1⟩ ⟨["src"], []⟩
        = (.ok ⟨"src/database", dateStr ⟨2024, 1, 1⟩ ++ ".db"⟩, fs1)
      ∧ create_database_path ⟨2024, 1, 1⟩ fs1
          = (.ok ⟨"src/database", dateStr ⟨2024, 1, 1⟩ ++ ".db"⟩, fs1)
      ∧ fs1.files = FS.files ⟨["src"], []⟩ :=
  c7_path_deterministic_same_day ⟨2024, 1, 1⟩ ⟨["src"], []⟩
    (Or.inl (by decide))

/-- C8: a fetch that receives a non-success HTTP status (400–599)
raises the classified HTTP-error kind, and the populate pipeline
performs no store write — `scrape_data` returns the same error with the
file-system state unchanged. -/
theorem c8_http_error_no_write (st : Nat) (b : Option J) (cols : List String)
    (today : Date) (fs : FS) (h4 : 400 ≤ st) (h6 : st < 600) :
    get_response (.response ⟨st, b⟩)
      = .error (.tvHttpError (.requestsHTTPError st))
    ∧ scrape_data (.response ⟨st, b⟩) cols today fs
        = (.error (.tvHttpError (.requestsHTTPError st)), fs) := by
  have hg : get_response (.response ⟨st, b⟩)
      = .error (.tvHttpError (.requestsHTTPError st)) := by
    simp [get_response, h4, h6]
  refine ⟨hg, ?_⟩
  simp [scrape_data, hg, reraiseTV, Exc.isTradingView]

/-- C8 witness: HTTP 500 with any body, starting from an empty file
system. -/
theorem c8_http_error_no_write_witness :
    get_response (.response ⟨500, none⟩)
      = .error (.tvHttpError (.requestsHTTPError 500))
    ∧ scrape_data (.response ⟨500, none⟩) [] ⟨2024, 1, 1⟩ ⟨[], []⟩
        = (.error (.tvHttpError (.requestsHTTPError 500)), ⟨[], []⟩) :=
  c8_http_error_no_write 500 none [] ⟨2024, 1, 1⟩ ⟨[], []⟩
    (by decide) (by decide)

/-- C9: the store connection is never closed by `create_sql_db` on any
exit path — the `with sqlite3.connect(path)` block commits on success
and rolls back on a write failure, but the `sqlite3` context manager
does not close the connection and the source never calls
`conn.close()`, so no execution's trace contains a close event. -/
theorem c9_connection_never_closed (p : DbPath) (df : DataFrame) (fs : FS) :
    ConnEvent.close ∉ (create_sql_db p df fs).2.2
    ∧ (create_sql_db p df fs).2.2
        = if fs.dirs.contains p.dir then
            (if (dfToSql df).isSome then [ConnEvent.acquire, ConnEvent.commit]
             else [ConnEvent.acquire, ConnEvent.rollback])
          else [] := by
  have htr : (create_sql_db p df fs).2.2
      = if fs.dirs.contains p.dir then
          (if (dfToSql df).isSome then [ConnEvent.acquire, ConnEvent.commit]
           else [ConnEvent.acquire, ConnEvent.rollback])
        else [] := by
    by_cases hm : p.dir ∈ fs.dirs
    · cases hb : dfToSql df with
      | none => simp [create_sql_db, hm, hb]
      | some rows => simp [create_sql_db, hm, hb]
    · simp [create_sql_db, hm]
  refine ⟨?_, htr⟩
  rw [htr]
  by_cases hm : p.dir ∈ fs.dirs
  · cases hb : (dfToSql df).isSome with
    | true => simp [hm, hb]
    | false => simp [hm, hb]
  · simp [hm]

/-- C10: every failure any of the public operations surfaces — path
construction, save, extraction, fetch, the scrape pipeline and the
overview — is an instance of the single classified error type
(`TradingViewError`); each operation's catch-all re-wraps every other
exception, so no raw library exception escapes to the caller. -/
theorem c10_only_classified_errors :
    ∀ (today : Date) (fs : FS) (p : DbPath) (df : DataFrame)
      (net : NetOutcome) (cols : List String) (resp : Response),
      resultClassified (create_database_path today fs).1 = true
      ∧ resultClassified (create_sql_db p df fs).1 = true
      ∧ resultClassified (response_to_df cols resp).1 = true
      ∧ resultClassified (get_response net) = true
      ∧ resultClassified (scrape_data net cols today fs).1 = true
      ∧ resultClassified (get_table_overview net cols today fs).1 = true :=
  fun today fs p df net cols resp =>
    ⟨create_database_path_classified today fs,
     create_sql_db_classified p df fs,
     response_to_df_classified cols resp,
     get_response_classified net,
     scrape_data_classified net cols today fs,
     get_table_overview_classified net cols today fs⟩
